import Mathlib

/-!
Shallow embedding of the message-routing core of the AxoChat server
(`src/chat/handler/message.rs` and `src/error.rs`), together with proofs
of the behavioural properties stated in the specification.

The router is modelled as pure state-passing functions over a `ChatServer`
value.  External effects are made observable through an explicit trace of
`Effect` values: every call to the content `Validator`, every query of the
`ModerationStore`, and every attempted send on a session's delivery sink is
recorded, with the sink outcome for a session given by its `sinkOk` field.
A Rust `.expect(..)` / `.unwrap()` panic is modelled by returning `none`.
-/

set_option autoImplicit false

namespace AxoChatModel

/-- Connection identifier, `InternalId` in the source (a numeric id). -/
abbrev InternalId := Nat

/-- Logical recipient identifier, `Id` in the source (derived from a user
name; its exact derivation lives outside the routed module and no claim
depends on it, so it is modelled as the name string itself). -/
abbrev Id := String

/-- Authenticated user data attached to a session (`session.user` in the
source): display name, durable account id (`uuid`, modelled as `Nat`) and
the private-message receptiveness preference `allow_messages`. -/
structure User where
  name : String
  uuid : Nat
  allow_messages : Bool
deriving DecidableEq

/-- Wire-level author info (`crate::auth::UserInfo`): name and uuid only. -/
structure UserInfo where
  name : String
  uuid : Nat
deriving DecidableEq

/-- The closed client-facing error enumeration from `src/error.rs`,
extended with the `Banned` variant that `message.rs:129` constructs
(the enum listing in the provided `error.rs` snapshot predates it). -/
inductive ClientError where
  | Banned
  | NotSupported
  | LoginFailed
  | NotLoggedIn
  | AlreadyLoggedIn
  | MojangRequestMissing
  | RateLimited
  | PrivateMessageNotAccepted
  | EmptyMessage
  | MessageTooLong
  | InvalidCharacter (c : Char)
  | Internal
deriving DecidableEq

/-- The crate-level `Error` enum from `src/error.rs`.  Only the `AxoChat`
variant carries data the router inspects; the payloads of the other
variants are external error values opaque to the router and are dropped. -/
inductive Error where
  | ioErr
  | jsonErr
  | tomlErr
  | actixErr
  | opensslErr
  | jwtErr
  | AxoChat (source : ClientError)
deriving DecidableEq

/-- Outbound packets constructed by the router (`ClientPacket` variants used
in `message.rs`). -/
inductive ClientPacket where
  | Message (author_id : Id) (author_info : Option UserInfo) (content : String)
  | PrivateMessage (author_id : Id) (author_info : Option UserInfo) (content : String)
  | Error (message : ClientError)
deriving DecidableEq

/-- Modelled from the spec: the per-session `RateLimiter` is not part of the
routed source files; per §2/§4.2 of the spec it tracks recorded message
attempts and answers whether a new attempt is over budget.  It is modelled
as a recorded-attempt counter against a fixed budget. -/
structure RateLimiter where
  attempts : Nat
  budget : Nat
deriving DecidableEq

/-- Whether the next attempt would be over budget. -/
def RateLimiter.overBudget (rl : RateLimiter) : Bool :=
  decide (rl.budget ≤ rl.attempts)

/-- Modelled from the spec: `check_new_message` records a new attempt
(mutating the limiter) and returns whether that attempt is over budget. -/
def RateLimiter.check_new_message (rl : RateLimiter) : RateLimiter × Bool :=
  ({ rl with attempts := rl.attempts + 1 }, rl.overBudget)

/-- One live connection's state (`SessionState`): optional authenticated
identity, rate limiter, and the delivery sink.  The sink (`addr` in the
source) is abstracted by `sinkOk`: whether `do_send` on this session's
sink succeeds. -/
structure SessionState where
  user : Option User
  rate_limiter : RateLimiter
  sinkOk : Bool
deriving DecidableEq

/-- Observable external effects of one router operation, in order. -/
inductive Effect where
  | validatorCall (content : String)
  | moderationCall (uuid : Nat)
  | sendAttempt (target : InternalId) (packet : ClientPacket) (ok : Bool)
deriving DecidableEq

/-- The chat server state (`ChatServer`): the connection map, the
identity index `ids`, and the two external collaborators, modelled as
functions: `validator` returns `some err` on rejection and `none` on
acceptance (Rust `Result<(), Error>`), `moderation` is `is_banned` keyed
by uuid.  The maps are association lists so that iteration order is
explicit. -/
structure ChatServer where
  connections : List (InternalId × SessionState)
  ids : List (Id × List InternalId)
  validator : String → Option Error
  moderation : Nat → Bool

/-- Association-list lookup (the `HashMap::get` of the source). -/
def alookup {α β : Type} [DecidableEq α] (k : α) : List (α × β) → Option β
  | [] => none
  | (k', v) :: rest => if k = k' then some v else alookup k rest

/-- Replacing the value stored at a key (the effect of mutating through
`HashMap::get_mut`). -/
def updateConn : List (InternalId × SessionState) → InternalId → SessionState →
    List (InternalId × SessionState)
  | [], _, _ => []
  | p :: rest, id, sess =>
    (if p.1 = id then (p.1, sess) else p) :: updateConn rest id sess

/-- `check_ratelimit` (message.rs:150-166): records a new attempt on the
session's rate limiter; if over budget, sends `RateLimited` to the sender
(best effort) and reports rejection.  Returns the updated session, the
rejection flag and the emitted effects. -/
def check_ratelimit (user_id : InternalId) (session : SessionState) :
    SessionState × Bool × List Effect :=
  let r := session.rate_limiter.check_new_message
  let session' : SessionState := { session with rate_limiter := r.1 }
  if r.2 then
    (session', true,
      [Effect.sendAttempt user_id (ClientPacket.Error ClientError.RateLimited)
        session.sinkOk])
  else
    (session', false, [])

/-- `basic_check` (message.rs:106-147): login check, then content
validation, then ban check, short-circuiting; on each rejection the
specific error is sent to the sender best-effort.  Returns `none` on the
`expect` panic (connection not found); otherwise `some (admitted?, trace)`
where `admitted?` is the sender's session when all checks pass. -/
def ChatServer.basic_check (s : ChatServer) (user_id : InternalId)
    (content : String) : Option (Option SessionState × List Effect) :=
  match alookup user_id s.connections with
  | none => none
  | some session =>
    match session.user with
    | some info =>
      match s.validator content with
      | some err =>
        some (none, Effect.validatorCall content ::
          (match err with
           | Error.AxoChat source =>
             [Effect.sendAttempt user_id (ClientPacket.Error source) session.sinkOk]
           | _ => []))
      | none =>
        if s.moderation info.uuid then
          some (none,
            [Effect.validatorCall content, Effect.moderationCall info.uuid,
             Effect.sendAttempt user_id (ClientPacket.Error ClientError.Banned)
               session.sinkOk])
        else
          some (some session,
            [Effect.validatorCall content, Effect.moderationCall info.uuid])
    | none =>
      some (none,
        [Effect.sendAttempt user_id (ClientPacket.Error ClientError.NotLoggedIn)
          session.sinkOk])

/-- The broadcast fan-out loop (message.rs:32-36): one `do_send` attempt per
entry of the connection map, failures only logged. -/
def broadcastLoop (conns : List (InternalId × SessionState))
    (packet : ClientPacket) : List Effect :=
  conns.map fun p => Effect.sendAttempt p.1 packet p.2.sinkOk

/-- `handle_message` (message.rs:9-38): `basic_check`, then the rate gate,
then construction of the `Message` packet and fan-out to every session. -/
def ChatServer.handle_message (s : ChatServer) (user_id : InternalId)
    (content : String) : Option (ChatServer × List Effect) :=
  match s.basic_check user_id content with
  | none => none
  | some (admitted, eff1) =>
    if admitted.isSome then
      match alookup user_id s.connections with
      | none => none
      | some session =>
        let rl := check_ratelimit user_id session
        let s1 : ChatServer :=
          { s with connections := updateConn s.connections user_id rl.1 }
        if rl.2.1 then
          some (s1, eff1 ++ rl.2.2)
        else
          match rl.1.user with
          | none => none
          | some info =>
            let packet := ClientPacket.Message info.name
              (some { name := info.name, uuid := info.uuid }) content
            some (s1, eff1 ++ rl.2.2 ++ broadcastLoop s1.connections packet)
    else
      some (s, eff1)

/-- The private-message candidate loop (message.rs:67-93): iterate the
resolved connection ids, skipping ids absent from the connection map
(`filter_map`) and sessions without `allow_messages`; attempt delivery to
each eligible candidate and stop at the first success.  Returns `none` on
the `unwrap` panic, otherwise whether a delivery succeeded plus the send
attempts made. -/
def pmLoop (conns : List (InternalId × SessionState)) (sender : SessionState)
    (content : String) : List InternalId → Option (Bool × List Effect)
  | [] => some (false, [])
  | id :: rest =>
    match alookup id conns with
    | none => pmLoop conns sender content rest
    | some rs =>
      match rs.user with
      | some info =>
        if info.allow_messages then
          match sender.user with
          | none => none
          | some sinfo =>
            let packet := ClientPacket.PrivateMessage sinfo.name
              (some { name := sinfo.name, uuid := sinfo.uuid }) content
            if rs.sinkOk then
              some (true, [Effect.sendAttempt id packet true])
            else
              match pmLoop conns sender content rest with
              | none => none
              | some (d, effs) =>
                some (d, Effect.sendAttempt id packet false :: effs)
        else pmLoop conns sender content rest
      | none => pmLoop conns sender content rest

/-- `handle_private_message` (message.rs:40-104): rate gate first, then
`basic_check`; on admission resolve the recipient through `ids` (silent
drop when absent) and run the candidate loop; whenever no delivery
succeeded — including when `basic_check` rejected — fall through to
sending `PrivateMessageNotAccepted` to the sender. -/
def ChatServer.handle_private_message (s : ChatServer) (user_id : InternalId)
    (receiver : Id) (content : String) : Option (ChatServer × List Effect) :=
  match alookup user_id s.connections with
  | none => none
  | some sender_session =>
    let rl := check_ratelimit user_id sender_session
    let s1 : ChatServer :=
      { s with connections := updateConn s.connections user_id rl.1 }
    if rl.2.1 then
      some (s1, rl.2.2)
    else
      match s1.basic_check user_id content with
      | none => none
      | some (admitted, eff2) =>
        match admitted with
        | some sender2 =>
          match alookup receiver s1.ids with
          | none => some (s1, rl.2.2 ++ eff2)
          | some receiver_ids =>
            match pmLoop s1.connections sender2 content receiver_ids with
            | none => none
            | some (true, eff3) => some (s1, rl.2.2 ++ eff2 ++ eff3)
            | some (false, eff3) =>
              match alookup user_id s1.connections with
              | none => none
              | some ss =>
                some (s1, rl.2.2 ++ eff2 ++ eff3 ++
                  [Effect.sendAttempt user_id
                    (ClientPacket.Error ClientError.PrivateMessageNotAccepted)
                    ss.sinkOk])
        | none =>
          match alookup user_id s1.connections with
          | none => none
          | some ss =>
            some (s1, rl.2.2 ++ eff2 ++
              [Effect.sendAttempt user_id
                (ClientPacket.Error ClientError.PrivateMessageNotAccepted)
                ss.sinkOk])

/-! ## Observables extracted from an effect trace -/

/-- Effects of a run, empty when the run panicked. -/
def runEffects (r : Option (ChatServer × List Effect)) : List Effect :=
  match r with
  | some (_, e) => e
  | none => []

/-- Resulting server of a run. -/
def runServer (r : Option (ChatServer × List Effect)) : Option ChatServer :=
  r.map Prod.fst

/-- Errors sent (attempted) to a given connection, in order. -/
def errorsTo (uid : InternalId) (effs : List Effect) : List ClientError :=
  effs.filterMap fun e =>
    match e with
    | Effect.sendAttempt t (ClientPacket.Error m) _ =>
      if t = uid then some m else none
    | _ => none

/-- Contents passed to the Validator, in order. -/
def validatorCalls (effs : List Effect) : List String :=
  effs.filterMap fun e =>
    match e with
    | Effect.validatorCall c => some c
    | _ => none

/-- Uuids queried on the ModerationStore, in order. -/
def moderationCalls (effs : List Effect) : List Nat :=
  effs.filterMap fun e =>
    match e with
    | Effect.moderationCall u => some u
    | _ => none

/-- Non-error dispatch attempts (chat events offered to a recipient sink,
successful or not), with their targets. -/
def dispatchAttempts (effs : List Effect) : List (InternalId × ClientPacket) :=
  effs.filterMap fun e =>
    match e with
    | Effect.sendAttempt t p _ =>
      match p with
      | ClientPacket.Error _ => none
      | _ => some (t, p)
    | _ => none

/-- Successfully delivered chat events (non-error sends whose sink
accepted), with their targets. -/
def deliveredEvents (effs : List Effect) : List (InternalId × ClientPacket) :=
  effs.filterMap fun e =>
    match e with
    | Effect.sendAttempt t p ok =>
      match p with
      | ClientPacket.Error _ => none
      | _ => if ok then some (t, p) else none
    | _ => none

/-- Targets of the non-error dispatch attempts of a trace. -/
def dispatchTargets (effs : List Effect) : List InternalId :=
  (dispatchAttempts effs).map Prod.fst

/-! ## Derived descriptions of the private-message candidate search -/

/-- Whether a candidate connection id is preference-eligible: it resolves in
the connection map to a session with an authenticated identity whose
`allow_messages` is true. -/
def eligibleB (conns : List (InternalId × SessionState)) (id : InternalId) :
    Bool :=
  match alookup id conns with
  | some rs =>
    match rs.user with
    | some info => info.allow_messages
    | none => false
  | none => false

/-- Sink outcome for a candidate id (false when the id does not resolve). -/
def sinkOkOf (conns : List (InternalId × SessionState)) (id : InternalId) :
    Bool :=
  match alookup id conns with
  | some rs => rs.sinkOk
  | none => false

/-- Negation of `sinkOkOf`, the continue-condition of the search. -/
def sinkFails (conns : List (InternalId × SessionState)) (id : InternalId) :
    Bool :=
  ! sinkOkOf conns id

/-- The preference-eligible candidates of a resolved id list, in registry
order. -/
def eliglist (conns : List (InternalId × SessionState))
    (rids : List InternalId) : List InternalId :=
  rids.filter (eligibleB conns)

/-- The first eligible candidate whose sink accepts, if any. -/
def pmWinner (conns : List (InternalId × SessionState))
    (rids : List InternalId) : Option InternalId :=
  (List.dropWhile (sinkFails conns) (eliglist conns rids)).head?

/-- The candidates actually attempted: every eligible candidate with a
failing sink up to, and then including, the first successful one. -/
def pmAttempted (conns : List (InternalId × SessionState))
    (rids : List InternalId) : List InternalId :=
  List.takeWhile (sinkFails conns) (eliglist conns rids) ++
    (pmWinner conns rids).toList

/-- The private-message packet built from the sender's identity. -/
def privatePacket (sinfo : User) (content : String) : ClientPacket :=
  ClientPacket.PrivateMessage sinfo.name
    (some { name := sinfo.name, uuid := sinfo.uuid }) content

/-- The session after recording one rate-limiter attempt. -/
def bump (sess : SessionState) : SessionState :=
  { sess with rate_limiter := sess.rate_limiter.check_new_message.1 }

/-- The server after the sender's rate limiter has recorded one attempt. -/
def bumpServer (s : ChatServer) (uid : InternalId) (sess : SessionState) :
    ChatServer :=
  { s with connections := updateConn s.connections uid (bump sess) }

/-! ## Concrete instances used by the closed witness theorems -/

/-- A sender identity. -/
def wUserA : User := { name := "alice", uuid := 1, allow_messages := true }

/-- The recipient identity with private messages disabled. -/
def wUserB_no : User := { name := "bob", uuid := 2, allow_messages := false }

/-- The recipient identity with private messages enabled. -/
def wUserB_yes : User := { name := "bob", uuid := 2, allow_messages := true }

/-- A session far under its rate budget. -/
def wSess (u : Option User) (ok : Bool) : SessionState :=
  { user := u, rate_limiter := { attempts := 0, budget := 8 }, sinkOk := ok }

/-- A session whose next attempt is over budget. -/
def wSessOver (u : Option User) : SessionState :=
  { user := u, rate_limiter := { attempts := 3, budget := 3 }, sinkOk := true }

/-- Four sessions; `bob` is logged in three times: once refusing private
messages, once accepting with a broken sink, once accepting with a working
sink. -/
def wServer1 : ChatServer :=
  { connections :=
      [(1, wSess (some wUserA) true), (2, wSess (some wUserB_no) true),
       (3, wSess (some wUserB_yes) false), (4, wSess (some wUserB_yes) true)],
    ids := [("bob", [2, 3, 4])],
    validator := fun _ => none,
    moderation := fun _ => false }

/-- A server whose sender `1` is over its rate budget. -/
def wServer2 : ChatServer :=
  { connections :=
      [(1, wSessOver (some wUserA)), (2, wSess (some wUserB_yes) true)],
    ids := [("bob", [2])],
    validator := fun _ => none,
    moderation := fun _ => false }

/-- A server whose sender `1` has not logged in. -/
def wServer3 : ChatServer :=
  { connections := [(1, wSess none true), (2, wSess (some wUserB_yes) true)],
    ids := [("bob", [2])],
    validator := fun _ => none,
    moderation := fun _ => false }

/-- A server where no candidate session of `bob` can receive: one refuses
private messages, the other accepts but its sink fails. -/
def wServer4 : ChatServer :=
  { connections :=
      [(1, wSess (some wUserA) true), (2, wSess (some wUserB_no) true),
       (3, wSess (some wUserB_yes) false)],
    ids := [("bob", [2, 3])],
    validator := fun _ => none,
    moderation := fun _ => false }

/-! ## Association-list lemmas -/

theorem alookup_updateConn_self {conns : List (InternalId × SessionState)}
    {uid : InternalId} {sess : SessionState} (v : SessionState)
    (h : alookup uid conns = some sess) :
    alookup uid (updateConn conns uid v) = some v := by
  induction conns with
  | nil => simp [alookup] at h
  | cons p rest ih =>
    by_cases hk : uid = p.1
    · rw [updateConn, if_pos hk.symm, alookup, if_pos hk]
    · have hk' : ¬ p.1 = uid := fun hh => hk hh.symm
      rw [alookup, if_neg hk] at h
      rw [updateConn, if_neg hk', alookup, if_neg hk]
      exact ih h

theorem alookup_updateConn_other {conns : List (InternalId × SessionState)}
    {uid k : InternalId} (v : SessionState) (h : k ≠ uid) :
    alookup k (updateConn conns uid v) = alookup k conns := by
  induction conns with
  | nil => simp [updateConn]
  | cons p rest ih =>
    by_cases hu : p.1 = uid
    · have hk : ¬ k = p.1 := fun hh => h (hh.trans hu)
      rw [updateConn, if_pos hu, alookup, if_neg hk, alookup, if_neg hk]
      exact ih
    · by_cases hk : k = p.1
      · rw [updateConn, if_neg hu, alookup, if_pos hk, alookup, if_pos hk]
      · rw [updateConn, if_neg hu, alookup, if_neg hk, alookup, if_neg hk]
        exact ih

theorem map_fst_updateConn (conns : List (InternalId × SessionState))
    (uid : InternalId) (v : SessionState) :
    (updateConn conns uid v).map Prod.fst = conns.map Prod.fst := by
  induction conns with
  | nil => simp [updateConn]
  | cons p rest ih =>
    by_cases hu : p.1 = uid <;>
      simp [updateConn, hu, ih]

theorem mem_map_fst_of_alookup {conns : List (InternalId × SessionState)}
    {k : InternalId} {v : SessionState} (h : alookup k conns = some v) :
    k ∈ conns.map Prod.fst := by
  induction conns with
  | nil => simp [alookup] at h
  | cons p rest ih =>
    by_cases hk : k = p.1
    · simp [hk]
    · simp [alookup, hk] at h
      simp [ih h]

/-- Updating only the sender's rate limiter does not change which
candidates are preference-eligible. -/
theorem eligibleB_bump {conns : List (InternalId × SessionState)}
    {uid : InternalId} {sess : SessionState}
    (h : alookup uid conns = some sess) :
    eligibleB (updateConn conns uid (bump sess)) = eligibleB conns := by
  funext id
  by_cases hk : id = uid
  · subst hk
    simp only [eligibleB]
    rw [alookup_updateConn_self (bump sess) h, h]
    rfl
  · simp only [eligibleB]
    rw [alookup_updateConn_other (bump sess) hk]

/-- Updating only the sender's rate limiter does not change any sink
outcome. -/
theorem sinkOkOf_bump {conns : List (InternalId × SessionState)}
    {uid : InternalId} {sess : SessionState}
    (h : alookup uid conns = some sess) :
    sinkOkOf (updateConn conns uid (bump sess)) = sinkOkOf conns := by
  funext id
  by_cases hk : id = uid
  · subst hk
    simp only [sinkOkOf]
    rw [alookup_updateConn_self (bump sess) h, h]
    rfl
  · simp only [sinkOkOf]
    rw [alookup_updateConn_other (bump sess) hk]

/-! ## Characterisation of the candidate loop -/

/-- The candidate loop performs exactly the two-level "first acceptable,
then first successful" search: it attempts the private packet on every
preference-eligible candidate with a failing sink up to the first eligible
candidate whose sink accepts, and reports whether one succeeded. -/
theorem pmLoop_spec (conns : List (InternalId × SessionState))
    (sender : SessionState) (content : String) (sinfo : User)
    (h : sender.user = some sinfo) :
    ∀ rids, pmLoop conns sender content rids =
      some ((pmWinner conns rids).isSome,
        (pmAttempted conns rids).map fun id =>
          Effect.sendAttempt id (privatePacket sinfo content)
            (sinkOkOf conns id)) := by
  intro rids
  induction rids with
  | nil => simp [pmLoop, pmWinner, pmAttempted, eliglist]
  | cons id rest ih =>
    cases ha : alookup id conns with
    | none =>
      have he : eligibleB conns id = false := by simp [eligibleB, ha]
      simp [pmLoop, ha, pmWinner, pmAttempted, eliglist, List.filter_cons,
        he, ih]
    | some rs =>
      cases hu : rs.user with
      | none =>
        have he : eligibleB conns id = false := by simp [eligibleB, ha, hu]
        simp [pmLoop, ha, hu, pmWinner, pmAttempted, eliglist,
          List.filter_cons, he, ih]
      | some info =>
        cases ham : info.allow_messages with
        | false =>
          have he : eligibleB conns id = false := by
            simp [eligibleB, ha, hu, ham]
          simp [pmLoop, ha, hu, ham, pmWinner, pmAttempted, eliglist,
            List.filter_cons, he, ih]
        | true =>
          have he : eligibleB conns id = true := by
            simp [eligibleB, ha, hu, ham]
          have hso : sinkOkOf conns id = rs.sinkOk := by simp [sinkOkOf, ha]
          cases hsk : rs.sinkOk with
          | true =>
            have hsf : sinkFails conns id = false := by
              simp [sinkFails, hso, hsk]
            simp [pmLoop, ha, hu, ham, h, hsk, pmWinner, pmAttempted,
              eliglist, List.filter_cons, he, List.takeWhile_cons,
              List.dropWhile_cons, hsf, hso, privatePacket]
          | false =>
            have hsf : sinkFails conns id = true := by
              simp [sinkFails, hso, hsk]
            simp [pmLoop, ha, hu, ham, h, hsk, ih, pmWinner, pmAttempted,
              eliglist, List.filter_cons, he, List.takeWhile_cons,
              List.dropWhile_cons, hsf, hso, privatePacket]

/-! ## Branch lemmas for `basic_check` -/

theorem basic_check_not_logged_in (s : ChatServer) {uid : InternalId}
    {sess : SessionState} (c : String)
    (hs : alookup uid s.connections = some sess) (hu : sess.user = none) :
    s.basic_check uid c = some (none,
      [Effect.sendAttempt uid (ClientPacket.Error ClientError.NotLoggedIn)
        sess.sinkOk]) := by
  simp [ChatServer.basic_check, hs, hu]

theorem basic_check_invalid (s : ChatServer) {uid : InternalId}
    {sess : SessionState} (c : String) {info : User} {err : Error}
    (hs : alookup uid s.connections = some sess) (hu : sess.user = some info)
    (hv : s.validator c = some err) :
    s.basic_check uid c = some (none, Effect.validatorCall c ::
      (match err with
       | Error.AxoChat source =>
         [Effect.sendAttempt uid (ClientPacket.Error source) sess.sinkOk]
       | _ => [])) := by
  cases err <;> simp [ChatServer.basic_check, hs, hu, hv]

theorem basic_check_banned (s : ChatServer) {uid : InternalId}
    {sess : SessionState} (c : String) {info : User}
    (hs : alookup uid s.connections = some sess) (hu : sess.user = some info)
    (hv : s.validator c = none) (hb : s.moderation info.uuid = true) :
    s.basic_check uid c = some (none,
      [Effect.validatorCall c, Effect.moderationCall info.uuid,
       Effect.sendAttempt uid (ClientPacket.Error ClientError.Banned)
         sess.sinkOk]) := by
  simp [ChatServer.basic_check, hs, hu, hv, hb]

theorem basic_check_admits (s : ChatServer) {uid : InternalId}
    {sess : SessionState} (c : String) {info : User}
    (hs : alookup uid s.connections = some sess) (hu : sess.user = some info)
    (hv : s.validator c = none) (hb : s.moderation info.uuid = false) :
    s.basic_check uid c = some (some sess,
      [Effect.validatorCall c, Effect.moderationCall info.uuid]) := by
  simp [ChatServer.basic_check, hs, hu, hv, hb]

/-! ## Branch lemmas for `handle_message` -/

/-- A `basic_check` rejection makes `handle_message` stop with the
rejection trace and an unchanged server. -/
theorem hm_rejected {s : ChatServer} {uid : InternalId} {e : List Effect}
    (c : String) (hbc : s.basic_check uid c = some (none, e)) :
    s.handle_message uid c = some (s, e) := by
  simp [ChatServer.handle_message, hbc]

theorem hm_limited {s : ChatServer} {uid : InternalId} {sess : SessionState}
    (c : String) {info : User}
    (hs : alookup uid s.connections = some sess) (hu : sess.user = some info)
    (hv : s.validator c = none) (hb : s.moderation info.uuid = false)
    (hrl : sess.rate_limiter.overBudget = true) :
    s.handle_message uid c = some (bumpServer s uid sess,
      [Effect.validatorCall c, Effect.moderationCall info.uuid,
       Effect.sendAttempt uid (ClientPacket.Error ClientError.RateLimited)
         sess.sinkOk]) := by
  have hr2 : sess.rate_limiter.check_new_message.2 = true := hrl
  simp [ChatServer.handle_message, basic_check_admits s c hs hu hv hb, hs,
    check_ratelimit, hr2, bumpServer, bump]

theorem hm_accepted {s : ChatServer} {uid : InternalId} {sess : SessionState}
    (c : String) {info : User}
    (hs : alookup uid s.connections = some sess) (hu : sess.user = some info)
    (hv : s.validator c = none) (hb : s.moderation info.uuid = false)
    (hrl : sess.rate_limiter.overBudget = false) :
    s.handle_message uid c = some (bumpServer s uid sess,
      [Effect.validatorCall c, Effect.moderationCall info.uuid] ++
      broadcastLoop (updateConn s.connections uid (bump sess))
        (ClientPacket.Message info.name
          (some { name := info.name, uuid := info.uuid }) c)) := by
  have hr2 : sess.rate_limiter.check_new_message.2 = false := hrl
  simp [ChatServer.handle_message, basic_check_admits s c hs hu hv hb, hs,
    check_ratelimit, hr2, hu, bumpServer, bump]

theorem sinkFails_bump {conns : List (InternalId × SessionState)}
    {uid : InternalId} {sess : SessionState}
    (hs : alookup uid conns = some sess) :
    sinkFails (updateConn conns uid (bump sess)) = sinkFails conns := by
  funext id
  simp only [sinkFails]
  rw [sinkOkOf_bump hs]

theorem pmWinner_bump {conns : List (InternalId × SessionState)}
    {uid : InternalId} {sess : SessionState} (rids : List InternalId)
    (hs : alookup uid conns = some sess) :
    pmWinner (updateConn conns uid (bump sess)) rids = pmWinner conns rids := by
  simp only [pmWinner, eliglist]
  rw [eligibleB_bump hs, sinkFails_bump hs]

theorem pmAttempted_bump {conns : List (InternalId × SessionState)}
    {uid : InternalId} {sess : SessionState} (rids : List InternalId)
    (hs : alookup uid conns = some sess) :
    pmAttempted (updateConn conns uid (bump sess)) rids =
      pmAttempted conns rids := by
  simp only [pmAttempted, pmWinner, eliglist]
  rw [eligibleB_bump hs, sinkFails_bump hs]

/-! ## Branch lemmas for `handle_private_message` -/

theorem hpm_limited {s : ChatServer} {uid : InternalId} {sess : SessionState}
    (r : Id) (c : String)
    (hs : alookup uid s.connections = some sess)
    (hrl : sess.rate_limiter.overBudget = true) :
    s.handle_private_message uid r c = some (bumpServer s uid sess,
      [Effect.sendAttempt uid (ClientPacket.Error ClientError.RateLimited)
        sess.sinkOk]) := by
  have hr2 : sess.rate_limiter.check_new_message.2 = true := hrl
  simp [ChatServer.handle_private_message, hs, check_ratelimit, hr2,
    bumpServer, bump]

theorem hpm_not_logged_in {s : ChatServer} {uid : InternalId}
    {sess : SessionState} (r : Id) (c : String)
    (hs : alookup uid s.connections = some sess)
    (hrl : sess.rate_limiter.overBudget = false) (hu : sess.user = none) :
    s.handle_private_message uid r c = some (bumpServer s uid sess,
      [Effect.sendAttempt uid (ClientPacket.Error ClientError.NotLoggedIn)
        sess.sinkOk,
       Effect.sendAttempt uid
         (ClientPacket.Error ClientError.PrivateMessageNotAccepted)
         sess.sinkOk]) := by
  have hr2 : sess.rate_limiter.check_new_message.2 = false := hrl
  have hs1 : alookup uid (updateConn s.connections uid
      { sess with rate_limiter := sess.rate_limiter.check_new_message.1 }) =
      some { sess with rate_limiter := sess.rate_limiter.check_new_message.1 } :=
    alookup_updateConn_self _ hs
  rw [hu] at hs1
  simp [ChatServer.handle_private_message, hs, check_ratelimit, hr2,
    ChatServer.basic_check, hs1, hu, bumpServer, bump]

theorem hpm_invalid {s : ChatServer} {uid : InternalId}
    {sess : SessionState} (r : Id) (c : String) {info : User} {err : Error}
    (hs : alookup uid s.connections = some sess)
    (hrl : sess.rate_limiter.overBudget = false)
    (hu : sess.user = some info) (hv : s.validator c = some err) :
    s.handle_private_message uid r c = some (bumpServer s uid sess,
      (Effect.validatorCall c ::
       (match err with
        | Error.AxoChat source =>
          [Effect.sendAttempt uid (ClientPacket.Error source) sess.sinkOk]
        | _ => [])) ++
      [Effect.sendAttempt uid
        (ClientPacket.Error ClientError.PrivateMessageNotAccepted)
        sess.sinkOk]) := by
  have hr2 : sess.rate_limiter.check_new_message.2 = false := hrl
  have hs1 : alookup uid (updateConn s.connections uid
      { sess with rate_limiter := sess.rate_limiter.check_new_message.1 }) =
      some { sess with rate_limiter := sess.rate_limiter.check_new_message.1 } :=
    alookup_updateConn_self _ hs
  rw [hu] at hs1
  cases err <;>
    simp [ChatServer.handle_private_message, hs, check_ratelimit, hr2,
      ChatServer.basic_check, hs1, hu, hv, bumpServer, bump]

theorem hpm_banned {s : ChatServer} {uid : InternalId}
    {sess : SessionState} (r : Id) (c : String) {info : User}
    (hs : alookup uid s.connections = some sess)
    (hrl : sess.rate_limiter.overBudget = false)
    (hu : sess.user = some info) (hv : s.validator c = none)
    (hb : s.moderation info.uuid = true) :
    s.handle_private_message uid r c = some (bumpServer s uid sess,
      [Effect.validatorCall c, Effect.moderationCall info.uuid,
       Effect.sendAttempt uid (ClientPacket.Error ClientError.Banned)
         sess.sinkOk,
       Effect.sendAttempt uid
         (ClientPacket.Error ClientError.PrivateMessageNotAccepted)
         sess.sinkOk]) := by
  have hr2 : sess.rate_limiter.check_new_message.2 = false := hrl
  have hs1 : alookup uid (updateConn s.connections uid
      { sess with rate_limiter := sess.rate_limiter.check_new_message.1 }) =
      some { sess with rate_limiter := sess.rate_limiter.check_new_message.1 } :=
    alookup_updateConn_self _ hs
  rw [hu] at hs1
  simp [ChatServer.handle_private_message, hs, check_ratelimit, hr2,
    ChatServer.basic_check, hs1, hu, hv, hb, bumpServer, bump]

theorem hpm_unknown {s : ChatServer} {uid : InternalId}
    {sess : SessionState} {r : Id} (c : String) {info : User}
    (hs : alookup uid s.connections = some sess)
    (hrl : sess.rate_limiter.overBudget = false)
    (hu : sess.user = some info) (hv : s.validator c = none)
    (hb : s.moderation info.uuid = false)
    (hr : alookup r s.ids = none) :
    s.handle_private_message uid r c = some (bumpServer s uid sess,
      [Effect.validatorCall c, Effect.moderationCall info.uuid]) := by
  have hr2 : sess.rate_limiter.check_new_message.2 = false := hrl
  have hs1 : alookup uid (updateConn s.connections uid
      { sess with rate_limiter := sess.rate_limiter.check_new_message.1 }) =
      some { sess with rate_limiter := sess.rate_limiter.check_new_message.1 } :=
    alookup_updateConn_self _ hs
  rw [hu] at hs1
  simp [ChatServer.handle_private_message, hs, check_ratelimit, hr2,
    ChatServer.basic_check, hs1, hu, hv, hb, hr, bumpServer, bump]

theorem hpm_resolved {s : ChatServer} {uid : InternalId}
    {sess : SessionState} {r : Id} (content : String) {sinfo : User}
    {rids : List InternalId}
    (hs : alookup uid s.connections = some sess)
    (hrl : sess.rate_limiter.overBudget = false)
    (hu : sess.user = some sinfo) (hv : s.validator content = none)
    (hb : s.moderation sinfo.uuid = false)
    (hr : alookup r s.ids = some rids) :
    s.handle_private_message uid r content = some (bumpServer s uid sess,
      [Effect.validatorCall content, Effect.moderationCall sinfo.uuid] ++
      ((pmAttempted s.connections rids).map fun id =>
        Effect.sendAttempt id (privatePacket sinfo content)
          (sinkOkOf s.connections id)) ++
      (if (pmWinner s.connections rids).isSome then []
       else
         [Effect.sendAttempt uid
           (ClientPacket.Error ClientError.PrivateMessageNotAccepted)
           sess.sinkOk])) := by
  have hr2 : sess.rate_limiter.check_new_message.2 = false := hrl
  have hs1 : alookup uid (updateConn s.connections uid
      { sess with rate_limiter := sess.rate_limiter.check_new_message.1 }) =
      some { sess with rate_limiter := sess.rate_limiter.check_new_message.1 } :=
    alookup_updateConn_self _ hs
  have hu1 : (bump sess).user = some sinfo := hu
  have hloop := pmLoop_spec
    (updateConn s.connections uid (bump sess)) (bump sess)
    content sinfo hu1 rids
  rw [pmWinner_bump rids hs, pmAttempted_bump rids hs, sinkOkOf_bump hs]
    at hloop
  simp only [bump] at hloop
  rw [hu] at hs1 hloop
  cases hw : pmWinner s.connections rids with
  | some w =>
    rw [hw] at hloop
    simp [ChatServer.handle_private_message, hs, check_ratelimit, hr2,
      ChatServer.basic_check, hs1, hu, hv, hb, hr, hloop, bumpServer, bump]
  | none =>
    rw [hw] at hloop
    simp [ChatServer.handle_private_message, hs, check_ratelimit, hr2,
      ChatServer.basic_check, hs1, hu, hv, hb, hr, hloop, bumpServer, bump]

/-! ## Observable-extraction lemmas -/

theorem errorsTo_append (uid : InternalId) (l l' : List Effect) :
    errorsTo uid (l ++ l') = errorsTo uid l ++ errorsTo uid l' := by
  simp [errorsTo, List.filterMap_append]

theorem dispatchAttempts_append (l l' : List Effect) :
    dispatchAttempts (l ++ l') =
      dispatchAttempts l ++ dispatchAttempts l' := by
  simp [dispatchAttempts, List.filterMap_append]

theorem deliveredEvents_append (l l' : List Effect) :
    deliveredEvents (l ++ l') =
      deliveredEvents l ++ deliveredEvents l' := by
  simp [deliveredEvents, List.filterMap_append]

theorem errorsTo_pm_attempts (uid : InternalId) (sinfo : User)
    (content : String) (f : InternalId → Bool) (l : List InternalId) :
    errorsTo uid (l.map fun id =>
      Effect.sendAttempt id (privatePacket sinfo content) (f id)) = [] := by
  induction l with
  | nil => rfl
  | cons a l _ => simp [errorsTo, privatePacket]

theorem validatorCalls_pm_attempts (sinfo : User) (content : String)
    (f : InternalId → Bool) (l : List InternalId) :
    validatorCalls (l.map fun id =>
      Effect.sendAttempt id (privatePacket sinfo content) (f id)) = [] := by
  induction l with
  | nil => rfl
  | cons a l _ => simp [validatorCalls]

theorem moderationCalls_pm_attempts (sinfo : User) (content : String)
    (f : InternalId → Bool) (l : List InternalId) :
    moderationCalls (l.map fun id =>
      Effect.sendAttempt id (privatePacket sinfo content) (f id)) = [] := by
  induction l with
  | nil => rfl
  | cons a l _ => simp [moderationCalls]

theorem dispatchAttempts_pm_attempts (sinfo : User) (content : String)
    (f : InternalId → Bool) (l : List InternalId) :
    dispatchAttempts (l.map fun id =>
      Effect.sendAttempt id (privatePacket sinfo content) (f id)) =
      l.map fun id => (id, privatePacket sinfo content) := by
  induction l with
  | nil => rfl
  | cons a l ih => simpa [dispatchAttempts, privatePacket] using ih

theorem deliveredEvents_pm_attempts (sinfo : User) (content : String)
    (f : InternalId → Bool) (l : List InternalId) :
    deliveredEvents (l.map fun id =>
      Effect.sendAttempt id (privatePacket sinfo content) (f id)) =
      (l.filter f).map fun id => (id, privatePacket sinfo content) := by
  induction l with
  | nil => rfl
  | cons a l ih =>
    cases hf : f a <;>
      simp [deliveredEvents, privatePacket, List.filter_cons, hf] <;>
      simpa [deliveredEvents, privatePacket] using ih

theorem errorsTo_broadcast (uid : InternalId)
    (conns : List (InternalId × SessionState)) (n : Id) (i : Option UserInfo)
    (c : String) :
    errorsTo uid (broadcastLoop conns (ClientPacket.Message n i c)) = [] := by
  induction conns with
  | nil => rfl
  | cons p rest _ => simp [broadcastLoop, errorsTo]

theorem dispatchAttempts_broadcast
    (conns : List (InternalId × SessionState)) (n : Id) (i : Option UserInfo)
    (c : String) :
    dispatchAttempts (broadcastLoop conns (ClientPacket.Message n i c)) =
      conns.map fun p => (p.1, ClientPacket.Message n i c) := by
  induction conns with
  | nil => rfl
  | cons p rest ih => simpa [broadcastLoop, dispatchAttempts] using ih

/-- Every candidate attempted before the winner has a failing sink. -/
theorem sinkOk_of_mem_takeWhile {conns : List (InternalId × SessionState)}
    {l : List InternalId} {a : InternalId}
    (h : a ∈ List.takeWhile (sinkFails conns) l) :
    sinkOkOf conns a = false := by
  have := List.mem_takeWhile_imp h
  simpa [sinkFails] using this

/-- The head surviving `dropWhile` falsifies the predicate. -/
theorem head_dropWhile_false {α : Type} (p : α → Bool) :
    ∀ (l : List α) (w : α), (l.dropWhile p).head? = some w → p w = false := by
  intro l
  induction l with
  | nil => intro w h; simp [List.dropWhile] at h
  | cons a l ih =>
    intro w h
    cases hp : p a with
    | true =>
      rw [List.dropWhile_cons, if_pos (by simp [hp])] at h
      exact ih w h
    | false =>
      rw [List.dropWhile_cons, if_neg (by simp [hp])] at h
      simp at h
      rw [← h]
      exact hp

/-- The winner, when it exists, has a succeeding sink. -/
theorem pmWinner_sinkOk {conns : List (InternalId × SessionState)}
    {rids : List InternalId} {w : InternalId}
    (h : pmWinner conns rids = some w) : sinkOkOf conns w = true := by
  have := head_dropWhile_false (sinkFails conns) (eliglist conns rids) w h
  simpa [sinkFails] using this

/-! ## Shared helper lemmas for the claim theorems -/

theorem filter_sinkOk_takeWhile (conns : List (InternalId × SessionState))
    (l : List InternalId) :
    (List.takeWhile (sinkFails conns) l).filter
      (fun id => sinkOkOf conns id) = [] := by
  rw [List.filter_eq_nil_iff]
  intro a ha
  simp [sinkOk_of_mem_takeWhile ha]

theorem hm_isSome {s : ChatServer} {uid : InternalId} {sess : SessionState}
    (c : String) (hs : alookup uid s.connections = some sess) :
    (s.handle_message uid c).isSome := by
  cases hu : sess.user with
  | none => rw [hm_rejected c (basic_check_not_logged_in s c hs hu)]; rfl
  | some info =>
    cases hv : s.validator c with
    | some err => rw [hm_rejected c (basic_check_invalid s c hs hu hv)]; rfl
    | none =>
      cases hb : s.moderation info.uuid with
      | true => rw [hm_rejected c (basic_check_banned s c hs hu hv hb)]; rfl
      | false =>
        cases hrl : sess.rate_limiter.overBudget with
        | true => rw [hm_limited c hs hu hv hb hrl]; rfl
        | false => rw [hm_accepted c hs hu hv hb hrl]; rfl

theorem hpm_isSome {s : ChatServer} {uid : InternalId} {sess : SessionState}
    (r : Id) (c : String) (hs : alookup uid s.connections = some sess) :
    (s.handle_private_message uid r c).isSome := by
  cases hrl : sess.rate_limiter.overBudget with
  | true => rw [hpm_limited r c hs hrl]; rfl
  | false =>
    cases hu : sess.user with
    | none => rw [hpm_not_logged_in r c hs hrl hu]; rfl
    | some info =>
      cases hv : s.validator c with
      | some err => rw [hpm_invalid r c hs hrl hu hv]; rfl
      | none =>
        cases hb : s.moderation info.uuid with
        | true => rw [hpm_banned r c hs hrl hu hv hb]; rfl
        | false =>
          cases hr : alookup r s.ids with
          | none => rw [hpm_unknown c hs hrl hu hv hb hr]; rfl
          | some rids => rw [hpm_resolved c hs hrl hu hv hb hr]; rfl

theorem basic_check_admitted_user {s : ChatServer} {uid : InternalId}
    {sess : SessionState} (c : String)
    (hs : alookup uid s.connections = some sess) :
    ∀ sess2 effs, s.basic_check uid c = some (some sess2, effs) →
      sess2.user.isSome := by
  intro sess2 effs h
  cases hu : sess.user with
  | none =>
    rw [basic_check_not_logged_in s c hs hu] at h
    simp at h
  | some info =>
    cases hv : s.validator c with
    | some err =>
      rw [basic_check_invalid s c hs hu hv] at h
      simp at h
    | none =>
      cases hb : s.moderation info.uuid with
      | true =>
        rw [basic_check_banned s c hs hu hv hb] at h
        simp at h
      | false =>
        rw [basic_check_admits s c hs hu hv hb] at h
        simp at h
        rw [← h.1, hu]
        rfl

theorem basic_check_admit_inv {s : ChatServer} {uid : InternalId}
    {sess : SessionState} (c : String)
    (hs : alookup uid s.connections = some sess) :
    ∀ sess2 effs, s.basic_check uid c = some (some sess2, effs) →
      ∃ info, sess.user = some info ∧ s.validator c = none ∧
        s.moderation info.uuid = false := by
  intro sess2 effs h
  cases hu : sess.user with
  | none =>
    rw [basic_check_not_logged_in s c hs hu] at h
    simp at h
  | some info =>
    cases hv : s.validator c with
    | some err =>
      rw [basic_check_invalid s c hs hu hv] at h
      simp at h
    | none =>
      cases hb : s.moderation info.uuid with
      | true =>
        rw [basic_check_banned s c hs hu hv hb] at h
        simp at h
      | false => exact ⟨info, rfl, rfl, hb⟩

theorem hm_accepted_targets {s : ChatServer} {uid : InternalId}
    {sess : SessionState} (c : String) {info : User}
    (hs : alookup uid s.connections = some sess) (hu : sess.user = some info)
    (hv : s.validator c = none) (hb : s.moderation info.uuid = false)
    (hrl : sess.rate_limiter.overBudget = false) :
    dispatchTargets (runEffects (s.handle_message uid c)) =
      s.connections.map Prod.fst := by
  rw [hm_accepted c hs hu hv hb hrl]
  simp only [runEffects, dispatchTargets, dispatchAttempts_append,
    dispatchAttempts_broadcast]
  have := map_fst_updateConn s.connections uid (bump sess)
  simp [dispatchAttempts, List.map_map]
  simpa using this

theorem map_fst_mk_pair {α β : Type} (pkt : β) (l : List α) :
    List.map (Prod.fst ∘ fun id => (id, pkt)) l = l := by
  induction l with
  | nil => rfl
  | cons a l ih =>
    simp only [List.map_cons, Function.comp_apply]
    rw [ih]

theorem map_pair_updateConn (conns : List (InternalId × SessionState))
    (uid : InternalId) (v : SessionState) (pkt : ClientPacket) :
    List.map (fun p => (p.1, pkt)) (updateConn conns uid v) =
      List.map (fun p => (p.1, pkt)) conns := by
  induction conns with
  | nil => rfl
  | cons p rest ih =>
    by_cases hu : p.1 = uid <;> simp [updateConn, hu, ih]

theorem map_pair_eq (pkt : ClientPacket)
    (l : List (InternalId × SessionState)) :
    List.map (fun p => (p.1, pkt)) l =
      (l.map Prod.fst).map fun i => (i, pkt) := by
  induction l with
  | nil => rfl
  | cons p rest ih => simp [ih]

/-! ## Claim theorems -/

/-- C1: private-message first-success semantics.  For every gate-passed
sender (registered, under budget, logged in, valid content, not banned)
whose recipient identity resolves to the candidate list `rids`,
`handle_private_message` attempts delivery exactly to `pmAttempted`:
the preference-eligible candidates in registry order up to and including
the first one whose sink accepts; and when such a winner `w` exists,
exactly one `PrivateMessage` event is delivered, to `w`, and no error of
any kind is sent to the sender. -/
theorem claim1_private_first_success
    (s : ChatServer) (uid : InternalId) (r : Id) (content : String)
    (sess : SessionState) (sinfo : User) (rids : List InternalId)
    (hs : alookup uid s.connections = some sess)
    (hrl : sess.rate_limiter.overBudget = false)
    (hu : sess.user = some sinfo)
    (hv : s.validator content = none)
    (hb : s.moderation sinfo.uuid = false)
    (hr : alookup r s.ids = some rids) :
    dispatchTargets (runEffects (s.handle_private_message uid r content)) =
        pmAttempted s.connections rids ∧
    ∀ w, pmWinner s.connections rids = some w →
      deliveredEvents
          (runEffects (s.handle_private_message uid r content)) =
        [(w, privatePacket sinfo content)] ∧
      errorsTo uid (runEffects (s.handle_private_message uid r content)) =
        [] := by
  have h := hpm_resolved content hs hrl hu hv hb hr
  constructor
  · rw [h]
    simp only [runEffects, dispatchTargets]
    rw [dispatchAttempts_append, dispatchAttempts_append,
      dispatchAttempts_pm_attempts]
    cases hw : pmWinner s.connections rids <;>
      simp [dispatchAttempts, List.map_map, map_fst_mk_pair]
  · intro w hw
    rw [h]
    constructor
    · simp only [runEffects]
      rw [deliveredEvents_append, deliveredEvents_append,
        deliveredEvents_pm_attempts]
      simp [deliveredEvents, hw, pmAttempted, List.filter_append,
        filter_sinkOk_takeWhile, pmWinner_sinkOk hw]
    · simp only [runEffects]
      rw [errorsTo_append, errorsTo_append, errorsTo_pm_attempts]
      simp [errorsTo, hw]

/-- Closed witness for C1 at the specification's three-candidate scenario:
candidate 2 refuses messages, candidate 3 accepts but its sink fails,
candidate 4 accepts and succeeds — the message is delivered exactly to 4
and the sender receives no error. -/
theorem claim1_witness :
    pmWinner wServer1.connections [2, 3, 4] = some 4 ∧
    pmAttempted wServer1.connections [2, 3, 4] = [3, 4] ∧
    dispatchTargets
        (runEffects (wServer1.handle_private_message 1 "bob" "hi")) =
      pmAttempted wServer1.connections [2, 3, 4] ∧
    deliveredEvents
        (runEffects (wServer1.handle_private_message 1 "bob" "hi")) =
      [(4, privatePacket wUserA "hi")] ∧
    errorsTo 1 (runEffects (wServer1.handle_private_message 1 "bob" "hi")) =
      [] := by
  have h := claim1_private_first_success wServer1 1 "bob" "hi"
    (wSess (some wUserA) true) wUserA [2, 3, 4]
    (by decide) (by decide) (by decide) rfl rfl (by decide)
  have h4 := h.2 4 (by decide)
  exact ⟨by decide, by decide, h.1, h4.1, h4.2⟩

/-- C2 counterexample: for the over-budget, logged-in sender `1` of
`wServer2`, a broadcast attempt does send exactly one `RateLimited`
error, but the Validator is called once (and the ModerationStore once)
before the rate gate — refuting the claimed zero validation/moderation
calls for every over-budget attempt. -/
theorem claim2_counterexample :
    (wSessOver (some wUserA)).rate_limiter.overBudget = true ∧
    errorsTo 1 (runEffects (wServer2.handle_message 1 "hi")) =
      [ClientError.RateLimited] ∧
    validatorCalls (runEffects (wServer2.handle_message 1 "hi")) = ["hi"] ∧
    moderationCalls (runEffects (wServer2.handle_message 1 "hi")) = [1] ∧
    ¬ validatorCalls (runEffects (wServer2.handle_message 1 "hi")) = [] := by
  decide

/-- C2 amended: the rate gate precedes the content checks only on the
private-message path: there an over-budget sender gets exactly one
`RateLimited` error with zero Validator/ModerationStore calls and zero
dispatches.  On the broadcast path `basic_check` runs first, so an
over-budget sender that passes it incurs one Validator call and one
ModerationStore call (keyed by uuid) before receiving the single
`RateLimited` error, still with zero dispatches. -/
theorem claim2_amended_rate_gate
    (s : ChatServer) (uid : InternalId) (sess : SessionState)
    (hs : alookup uid s.connections = some sess)
    (hrl : sess.rate_limiter.overBudget = true) :
    (∀ r c,
      errorsTo uid (runEffects (s.handle_private_message uid r c)) =
          [ClientError.RateLimited] ∧
      validatorCalls (runEffects (s.handle_private_message uid r c)) = [] ∧
      moderationCalls (runEffects (s.handle_private_message uid r c)) = [] ∧
      dispatchAttempts (runEffects (s.handle_private_message uid r c)) = []) ∧
    (∀ c info, sess.user = some info → s.validator c = none →
      s.moderation info.uuid = false →
      errorsTo uid (runEffects (s.handle_message uid c)) =
          [ClientError.RateLimited] ∧
      validatorCalls (runEffects (s.handle_message uid c)) = [c] ∧
      moderationCalls (runEffects (s.handle_message uid c)) = [info.uuid] ∧
      dispatchAttempts (runEffects (s.handle_message uid c)) = []) := by
  constructor
  · intro r c
    rw [hpm_limited r c hs hrl]
    simp [runEffects, errorsTo, validatorCalls, moderationCalls,
      dispatchAttempts]
  · intro c info hu hv hb
    rw [hm_limited c hs hu hv hb hrl]
    simp [runEffects, errorsTo, validatorCalls, moderationCalls,
      dispatchAttempts]

/-- Closed witness for the amended C2 at `wServer2`. -/
theorem claim2_witness :
    errorsTo 1 (runEffects (wServer2.handle_private_message 1 "bob" "hi")) =
      [ClientError.RateLimited] ∧
    validatorCalls (runEffects (wServer2.handle_private_message 1 "bob" "hi"))
      = [] ∧
    dispatchAttempts
      (runEffects (wServer2.handle_private_message 1 "bob" "hi")) = [] := by
  have h := claim2_amended_rate_gate wServer2 1 (wSessOver (some wUserA))
    (by decide) (by decide)
  exact ⟨(h.1 "bob" "hi").1, (h.1 "bob" "hi").2.1, (h.1 "bob" "hi").2.2.2⟩

/-- C3 counterexample: the not-logged-in, under-budget sender `1` of
`wServer3` receives `NotLoggedIn` on a private-message attempt, but also
a second error, `PrivateMessageNotAccepted`, because
`handle_private_message` falls through to its exhaustion error when
`basic_check` rejects — refuting the claimed "no other error". -/
theorem claim3_counterexample :
    (wSess none true).user = none ∧
    (wSess none true).rate_limiter.overBudget = false ∧
    errorsTo 1 (runEffects (wServer3.handle_private_message 1 "bob" "hi")) =
      [ClientError.NotLoggedIn, ClientError.PrivateMessageNotAccepted] ∧
    ¬ errorsTo 1 (runEffects (wServer3.handle_private_message 1 "bob" "hi")) =
      [ClientError.NotLoggedIn] := by
  decide

/-- C3 amended: an unauthenticated, not-rate-limited sender gets exactly
one `NotLoggedIn` error and zero dispatches on a broadcast attempt; on a
private-message attempt it gets the `NotLoggedIn` error followed by one
additional `PrivateMessageNotAccepted` error, and zero dispatches. -/
theorem claim3_amended_not_logged_in
    (s : ChatServer) (uid : InternalId) (sess : SessionState)
    (hs : alookup uid s.connections = some sess) (hu : sess.user = none)
    (hrl : sess.rate_limiter.overBudget = false) :
    (∀ c,
      errorsTo uid (runEffects (s.handle_message uid c)) =
          [ClientError.NotLoggedIn] ∧
      dispatchAttempts (runEffects (s.handle_message uid c)) = [] ∧
      validatorCalls (runEffects (s.handle_message uid c)) = [] ∧
      moderationCalls (runEffects (s.handle_message uid c)) = []) ∧
    (∀ r c,
      errorsTo uid (runEffects (s.handle_private_message uid r c)) =
          [ClientError.NotLoggedIn, ClientError.PrivateMessageNotAccepted] ∧
      dispatchAttempts (runEffects (s.handle_private_message uid r c)) =
        []) := by
  constructor
  · intro c
    rw [hm_rejected c (basic_check_not_logged_in s c hs hu)]
    simp [runEffects, errorsTo, dispatchAttempts, validatorCalls,
      moderationCalls]
  · intro r c
    rw [hpm_not_logged_in r c hs hrl hu]
    simp [runEffects, errorsTo, dispatchAttempts]

/-- Closed witness for the amended C3 at `wServer3`. -/
theorem claim3_witness :
    errorsTo 1 (runEffects (wServer3.handle_message 1 "hi")) =
      [ClientError.NotLoggedIn] ∧
    dispatchAttempts (runEffects (wServer3.handle_message 1 "hi")) = [] ∧
    dispatchAttempts
      (runEffects (wServer3.handle_private_message 1 "bob" "hi")) = [] := by
  have h := claim3_amended_not_logged_in wServer3 1 (wSess none true)
    (by decide) (by decide) (by decide)
  exact ⟨(h.1 "hi").1, (h.1 "hi").2.1, (h.2 "bob" "hi").2⟩

/-- C4: private-message exhaustion.  For every gate-passed sender whose
recipient resolves to a non-empty candidate list in which no
preference-eligible candidate has a working sink (`pmWinner` is `none`),
exactly one `PrivateMessageNotAccepted` error is sent to the sender and
no `PrivateMessage` event is delivered to anyone. -/
theorem claim4_private_exhaustion
    (s : ChatServer) (uid : InternalId) (r : Id) (content : String)
    (sess : SessionState) (sinfo : User) (rids : List InternalId)
    (hs : alookup uid s.connections = some sess)
    (hrl : sess.rate_limiter.overBudget = false)
    (hu : sess.user = some sinfo)
    (hv : s.validator content = none)
    (hb : s.moderation sinfo.uuid = false)
    (hr : alookup r s.ids = some rids) (_hne : rids ≠ [])
    (hw : pmWinner s.connections rids = none) :
    errorsTo uid (runEffects (s.handle_private_message uid r content)) =
      [ClientError.PrivateMessageNotAccepted] ∧
    deliveredEvents (runEffects (s.handle_private_message uid r content)) =
      [] := by
  have h := hpm_resolved content hs hrl hu hv hb hr
  constructor
  · rw [h]
    simp only [runEffects]
    rw [errorsTo_append, errorsTo_append, errorsTo_pm_attempts]
    simp [errorsTo, hw]
  · rw [h]
    simp only [runEffects]
    rw [deliveredEvents_append, deliveredEvents_append,
      deliveredEvents_pm_attempts]
    simp [deliveredEvents, hw, pmAttempted, List.filter_append,
      filter_sinkOk_takeWhile]

/-- Closed witness for C4 at `wServer4`: one candidate refuses messages,
the other accepts but its sink fails; the sender gets exactly one
`PrivateMessageNotAccepted` and nothing is delivered. -/
theorem claim4_witness :
    pmWinner wServer4.connections [2, 3] = none ∧
    errorsTo 1 (runEffects (wServer4.handle_private_message 1 "bob" "hi")) =
      [ClientError.PrivateMessageNotAccepted] ∧
    deliveredEvents
      (runEffects (wServer4.handle_private_message 1 "bob" "hi")) = [] := by
  have h := claim4_private_exhaustion wServer4 1 "bob" "hi"
    (wSess (some wUserA) true) wUserA [2, 3]
    (by decide) (by decide) (by decide) rfl rfl (by decide) (by decide)
    (by decide)
  exact ⟨by decide, h.1, h.2⟩

/-- C5: an unknown recipient identity is a silent drop.  For every
gate-passed sender whose recipient is absent from the identity index,
zero errors are sent to the sender (in particular no
`PrivateMessageNotAccepted`) and zero chat events are offered to any
recipient. -/
theorem claim5_unknown_recipient_silent
    (s : ChatServer) (uid : InternalId) (r : Id) (content : String)
    (sess : SessionState) (sinfo : User)
    (hs : alookup uid s.connections = some sess)
    (hrl : sess.rate_limiter.overBudget = false)
    (hu : sess.user = some sinfo)
    (hv : s.validator content = none)
    (hb : s.moderation sinfo.uuid = false)
    (hr : alookup r s.ids = none) :
    errorsTo uid (runEffects (s.handle_private_message uid r content)) =
      [] ∧
    dispatchAttempts (runEffects (s.handle_private_message uid r content)) =
      [] := by
  rw [hpm_unknown content hs hrl hu hv hb hr]
  simp [runEffects, errorsTo, dispatchAttempts]

/-- Closed witness for C5 at `wServer1` with the unknown identity
`carol`. -/
theorem claim5_witness :
    alookup "carol" wServer1.ids = none ∧
    errorsTo 1 (runEffects (wServer1.handle_private_message 1 "carol" "hi")) =
      [] ∧
    dispatchAttempts
      (runEffects (wServer1.handle_private_message 1 "carol" "hi")) = [] := by
  have h := claim5_unknown_recipient_silent wServer1 1 "carol" "hi"
    (wSess (some wUserA) true) wUserA
    (by decide) (by decide) (by decide) rfl rfl (by decide)
  exact ⟨by decide, h.1, h.2⟩

/-- C6: the `basic_check` pipeline contract.  For every registered
connection: with no authenticated identity the check stops at the login
gate (no Validator or ModerationStore interaction) and sends
`NotLoggedIn`; a Validator rejection carrying a `ClientError` is
forwarded verbatim as the client-facing error with no ModerationStore
query; the ban check queries the ModerationStore with the durable
`uuid` and rejects with `Banned`; and on admission the check returns the
sender's session, whose identity is non-absent. -/
theorem claim6_basic_check_contract
    (s : ChatServer) (uid : InternalId) (c : String) (sess : SessionState)
    (hs : alookup uid s.connections = some sess) :
    (sess.user = none →
      s.basic_check uid c = some (none,
        [Effect.sendAttempt uid (ClientPacket.Error ClientError.NotLoggedIn)
          sess.sinkOk])) ∧
    (∀ info ce, sess.user = some info →
      s.validator c = some (Error.AxoChat ce) →
      s.basic_check uid c = some (none,
        [Effect.validatorCall c,
         Effect.sendAttempt uid (ClientPacket.Error ce) sess.sinkOk])) ∧
    (∀ info, sess.user = some info → s.validator c = none →
      s.moderation info.uuid = true →
      s.basic_check uid c = some (none,
        [Effect.validatorCall c, Effect.moderationCall info.uuid,
         Effect.sendAttempt uid (ClientPacket.Error ClientError.Banned)
           sess.sinkOk])) ∧
    (∀ info, sess.user = some info → s.validator c = none →
      s.moderation info.uuid = false →
      s.basic_check uid c = some (some sess,
        [Effect.validatorCall c, Effect.moderationCall info.uuid]) ∧
      sess.user.isSome) := by
  refine ⟨fun hu => basic_check_not_logged_in s c hs hu,
    fun info ce hu hv => ?_,
    fun info hu hv hb => basic_check_banned s c hs hu hv hb,
    fun info hu hv hb =>
      ⟨basic_check_admits s c hs hu hv hb, by simp [hu]⟩⟩
  exact basic_check_invalid s c hs hu hv

/-- Closed witness for C6: the admission and login branches at concrete
servers. -/
theorem claim6_witness :
    wServer1.basic_check 1 "hi" = some (some (wSess (some wUserA) true),
      [Effect.validatorCall "hi", Effect.moderationCall 1]) ∧
    wServer3.basic_check 1 "hi" = some (none,
      [Effect.sendAttempt 1 (ClientPacket.Error ClientError.NotLoggedIn)
        true]) := by
  have h1 := claim6_basic_check_contract wServer1 1 "hi"
    (wSess (some wUserA) true) (by decide)
  have h3 := claim6_basic_check_contract wServer3 1 "hi" (wSess none true)
    (by decide)
  refine ⟨(h1.2.2.2 wUserA (by decide) rfl rfl).1, ?_⟩
  have := h3.1 (by decide)
  simpa [wSess] using this

/-- C7: broadcast fan-out totality.  For every accepted broadcast, exactly
one delivery attempt of the constructed `Message` event is made per entry
of the connection map, in registry order — irrespective of any sink
failures, which therefore neither abort the iteration nor produce any
error back to the sender. -/
theorem claim7_broadcast_fanout
    (s : ChatServer) (uid : InternalId) (c : String)
    (sess : SessionState) (info : User)
    (hs : alookup uid s.connections = some sess)
    (hu : sess.user = some info)
    (hv : s.validator c = none) (hb : s.moderation info.uuid = false)
    (hrl : sess.rate_limiter.overBudget = false) :
    (s.handle_message uid c).isSome ∧
    dispatchAttempts (runEffects (s.handle_message uid c)) =
      (s.connections.map Prod.fst).map
        (fun i => (i, ClientPacket.Message info.name
          (some { name := info.name, uuid := info.uuid }) c)) ∧
    dispatchTargets (runEffects (s.handle_message uid c)) =
      s.connections.map Prod.fst ∧
    errorsTo uid (runEffects (s.handle_message uid c)) = [] := by
  refine ⟨hm_isSome c hs, ?_, hm_accepted_targets c hs hu hv hb hrl, ?_⟩
  · rw [hm_accepted c hs hu hv hb hrl]
    simp only [runEffects]
    rw [dispatchAttempts_append, dispatchAttempts_broadcast,
      map_pair_updateConn, map_pair_eq]
    rfl
  · rw [hm_accepted c hs hu hv hb hrl]
    simp only [runEffects]
    rw [errorsTo_append, errorsTo_broadcast]
    simp [errorsTo]

/-- Closed witness for C7 at `wServer1`, where session 3's sink fails:
all four sessions are still attempted and no error reaches the sender. -/
theorem claim7_witness :
    (wServer1.handle_message 1 "hi").isSome ∧
    dispatchTargets (runEffects (wServer1.handle_message 1 "hi")) =
      [1, 2, 3, 4] ∧
    errorsTo 1 (runEffects (wServer1.handle_message 1 "hi")) = [] := by
  have h := claim7_broadcast_fanout wServer1 1 "hi"
    (wSess (some wUserA) true) wUserA (by decide) (by decide) rfl rfl
    (by decide)
  exact ⟨h.1, by rw [h.2.2.1]; decide, h.2.2.2⟩

/-- C8: registered-sender no-panic precondition.  Whenever the sender's
connection id is present in the connection map, neither handler reaches
a connection-lookup failure or identity `unwrap` failure (modelled as
`none`), and `basic_check` admits only sessions whose identity is
non-absent. -/
theorem claim8_no_panic
    (s : ChatServer) (uid : InternalId) (r : Id) (c : String)
    (hs : (alookup uid s.connections).isSome) :
    (s.handle_message uid c).isSome ∧
    (s.handle_private_message uid r c).isSome ∧
    (∀ sess2 effs, s.basic_check uid c = some (some sess2, effs) →
      sess2.user.isSome) := by
  obtain ⟨sess, hsess⟩ := Option.isSome_iff_exists.mp hs
  exact ⟨hm_isSome c hsess, hpm_isSome r c hsess,
    basic_check_admitted_user c hsess⟩

/-- Closed witness for C8 at `wServer1`. -/
theorem claim8_witness :
    (alookup 1 wServer1.connections).isSome ∧
    (wServer1.handle_message 1 "hi").isSome ∧
    (wServer1.handle_private_message 1 "bob" "hi").isSome := by
  have h := claim8_no_panic wServer1 1 "bob" "hi" (by decide)
  exact ⟨by decide, h.1, h.2.1⟩

/-- C9: implicit broadcast inclusion policy.  The recipient set of an
accepted broadcast is exactly the whole connection map: the sender's own
session is attempted and so is every session, including those with no
authenticated identity — no eligibility filter excludes anyone. -/
theorem claim9_broadcast_inclusion
    (s : ChatServer) (uid : InternalId) (c : String)
    (sess : SessionState) (info : User)
    (hs : alookup uid s.connections = some sess)
    (hu : sess.user = some info)
    (hv : s.validator c = none) (hb : s.moderation info.uuid = false)
    (hrl : sess.rate_limiter.overBudget = false) :
    dispatchTargets (runEffects (s.handle_message uid c)) =
      s.connections.map Prod.fst ∧
    uid ∈ dispatchTargets (runEffects (s.handle_message uid c)) ∧
    ∀ p ∈ s.connections,
      p.1 ∈ dispatchTargets (runEffects (s.handle_message uid c)) := by
  have ht := hm_accepted_targets c hs hu hv hb hrl
  refine ⟨ht, ?_, ?_⟩
  · rw [ht]
    exact mem_map_fst_of_alookup hs
  · intro p hp
    rw [ht]
    exact List.mem_map.mpr ⟨p, hp, rfl⟩

/-- Closed witness for C9 at `wServer3`: sender 2's accepted broadcast is
attempted on session 2 itself and on the unauthenticated session 1. -/
theorem claim9_witness :
    dispatchTargets (runEffects (wServer3.handle_message 2 "hi")) =
      [1, 2] ∧
    (2 : InternalId) ∈
      dispatchTargets (runEffects (wServer3.handle_message 2 "hi")) ∧
    (1 : InternalId) ∈
      dispatchTargets (runEffects (wServer3.handle_message 2 "hi")) ∧
    (wSess none true).user = none := by
  have h := claim9_broadcast_inclusion wServer3 2 "hi"
    (wSess (some wUserB_yes) true) wUserB_yes (by decide) (by decide) rfl
    rfl (by decide)
  refine ⟨by rw [h.1]; decide, h.2.1, ?_, by decide⟩
  exact h.2.2 (1, wSess none true) (by decide)

/-- C10: rate-limiter mutation asymmetry.  Every registered call to
`handle_private_message` leaves the server in the state whose only
difference is the sender's recorded rate-limiter attempt — even when the
sender is unauthenticated, the content invalid or the sender banned —
whereas `handle_message` leaves the server completely unchanged whenever
`basic_check` rejects and records the attempt exactly when it admits;
the bump changes no other session field and no other registry entry. -/
theorem claim10_ratelimit_asymmetry
    (s : ChatServer) (uid : InternalId) (sess : SessionState)
    (hs : alookup uid s.connections = some sess) :
    (∀ r c, runServer (s.handle_private_message uid r c) =
        some (bumpServer s uid sess)) ∧
    (∀ c e, s.basic_check uid c = some (none, e) →
        runServer (s.handle_message uid c) = some s) ∧
    (∀ c sess2 e, s.basic_check uid c = some (some sess2, e) →
        runServer (s.handle_message uid c) = some (bumpServer s uid sess)) ∧
    (bump sess).user = sess.user ∧
    (bump sess).sinkOk = sess.sinkOk ∧
    (bump sess).rate_limiter = sess.rate_limiter.check_new_message.1 ∧
    (bumpServer s uid sess).ids = s.ids ∧
    alookup uid (bumpServer s uid sess).connections = some (bump sess) ∧
    (∀ k, k ≠ uid →
      alookup k (bumpServer s uid sess).connections =
        alookup k s.connections) := by
  refine ⟨?_, ?_, ?_, rfl, rfl, rfl, rfl,
    alookup_updateConn_self _ hs, fun k hk => alookup_updateConn_other _ hk⟩
  · intro r c
    cases hrl : sess.rate_limiter.overBudget with
    | true => rw [hpm_limited r c hs hrl]; rfl
    | false =>
      cases hu : sess.user with
      | none => rw [hpm_not_logged_in r c hs hrl hu]; rfl
      | some info =>
        cases hv : s.validator c with
        | some err => rw [hpm_invalid r c hs hrl hu hv]; rfl
        | none =>
          cases hb : s.moderation info.uuid with
          | true => rw [hpm_banned r c hs hrl hu hv hb]; rfl
          | false =>
            cases hr : alookup r s.ids with
            | none => rw [hpm_unknown c hs hrl hu hv hb hr]; rfl
            | some rids => rw [hpm_resolved c hs hrl hu hv hb hr]; rfl
  · intro c e hbc
    rw [hm_rejected c hbc]
    rfl
  · intro c sess2 e hbc
    obtain ⟨info, hu, hv, hb⟩ := basic_check_admit_inv c hs sess2 e hbc
    cases hrl : sess.rate_limiter.overBudget with
    | true => rw [hm_limited c hs hu hv hb hrl]; rfl
    | false => rw [hm_accepted c hs hu hv hb hrl]; rfl

/-- Closed witness for C10 at `wServer3`: the unauthenticated sender's
private-message attempt still bumps its rate limiter, while its rejected
broadcast attempt leaves the server untouched. -/
theorem claim10_witness :
    runServer (wServer3.handle_private_message 1 "bob" "hi") =
      some (bumpServer wServer3 1 (wSess none true)) ∧
    runServer (wServer3.handle_message 1 "hi") = some wServer3 := by
  have h := claim10_ratelimit_asymmetry wServer3 1 (wSess none true)
    (by decide)
  refine ⟨h.1 "bob" "hi", ?_⟩
  exact h.2.1 "hi"
    [Effect.sendAttempt 1 (ClientPacket.Error ClientError.NotLoggedIn) true]
    (by decide)

end AxoChatModel
